import Mathlib

/-!
Shallow embedding of the AfroFuture ticket-sales bot core
(conversation state machine, payment webhook/callback reconciliation,
reminder and deadline schedulers), translated from the TypeScript source.

Modelling conventions:
* Monetary amounts are rationals (the source uses JS numbers holding
  decimal currency values such as 918.75).
* Optional (possibly-`undefined`) fields become `Option`; JavaScript
  truthiness of an optional string (`undefined` and `""` are falsy) and of
  an optional number (`undefined` and `0` are falsy) is modelled explicitly.
* The session-store write contract (`updateSession` merges partial fields,
  `resetToMainMenu` replaces the whole document) is reflected by the
  session values the modelled handlers return as "persisted".
* Outbound chat messages are a tagged type `OutMsg`; message-string
  templating is out of scope of the core, so a message is identified by
  its constructor and the parameters the source passes to the template.
* Transport failures and store failures are not modelled; a thrown
  `ValidationError` and the `TypeError`s reachable in the source are.
-/

namespace Afro

/-- Drop leading JavaScript whitespace from a character list. -/
def trimLeftChars : List Char → List Char
  | [] => []
  | c :: cs => if c.isWhitespace then trimLeftChars cs else c :: cs

/-- JavaScript `String.prototype.trim()`: strip whitespace from both
ends. -/
def jsTrim (s : String) : String :=
  ⟨(trimLeftChars (trimLeftChars s.toList).reverse).reverse⟩

/-- JavaScript `String.prototype.toLowerCase()` (ASCII letters, which is
all the conversation tokens use). -/
def jsToLower (s : String) : String :=
  ⟨s.toList.map Char.toLower⟩

/-- JavaScript `String.prototype.toUpperCase()` (ASCII letters). -/
def jsToUpper (s : String) : String :=
  ⟨s.toList.map Char.toUpper⟩

/-- Ticket tiers (`types/session.ts`). -/
inductive TicketType
  | GA
  | VIP
  deriving DecidableEq, Repr

/-- Payment types (`types/session.ts`). -/
inductive PaymentType
  | full
  | installment
  deriving DecidableEq, Repr

/-- Installment plans (`types/session.ts`). -/
inductive InstallmentPlan
  | A
  | B
  | C
  deriving DecidableEq, Repr

/-- The conversation-state vocabulary of `types/session.ts` (the
`SessionState` union type, eleven values). -/
inductive SessionState
  | WELCOME
  | MAIN_MENU
  | SELECT_TICKET
  | SELECT_PAYMENT_TYPE
  | SELECT_INSTALLMENT_PLAN
  | AWAITING_EMAIL
  | AWAITING_COUPON_ANSWER
  | AWAITING_COUPON_CODE
  | AWAITING_CONTINUE_ANSWER
  | AWAITING_PAYMENT
  | WALLET_TRANSFER
  deriving DecidableEq, Repr

/- The runtime constants object `SESSION_STATES` of `config/constants.ts`.
That object has exactly eight keys; accessing one of its keys yields the
corresponding state string, and accessing a missing key yields
`undefined` (modelled as `none`).  The keys `AWAITING_COUPON_ANSWER`,
`AWAITING_COUPON_CODE` and `AWAITING_CONTINUE_ANSWER` referenced by
`handlers/payment.ts` are NOT among the object's keys, so those property
accesses evaluate to `undefined`. -/
namespace SESSION_STATES

def WELCOME : Option SessionState := some .WELCOME

def MAIN_MENU : Option SessionState := some .MAIN_MENU

def SELECT_TICKET : Option SessionState := some .SELECT_TICKET

def SELECT_PAYMENT_TYPE : Option SessionState := some .SELECT_PAYMENT_TYPE

def SELECT_INSTALLMENT_PLAN : Option SessionState := some .SELECT_INSTALLMENT_PLAN

def AWAITING_EMAIL : Option SessionState := some .AWAITING_EMAIL

def AWAITING_PAYMENT : Option SessionState := some .AWAITING_PAYMENT

def WALLET_TRANSFER : Option SessionState := some .WALLET_TRANSFER

/-- `SESSION_STATES.AWAITING_COUPON_ANSWER`: the constants object has no
such key, so the property access yields `undefined`. -/
def AWAITING_COUPON_ANSWER : Option SessionState := none

/-- `SESSION_STATES.AWAITING_COUPON_CODE`: missing key, `undefined`. -/
def AWAITING_COUPON_CODE : Option SessionState := none

/-- `SESSION_STATES.AWAITING_CONTINUE_ANSWER`: missing key, `undefined`. -/
def AWAITING_CONTINUE_ANSWER : Option SessionState := none

end SESSION_STATES

/-- Per-chat-identity session document (`types/session.ts`, coupon-flow
variant).  `reminders` is the per-threshold sent-flag bag, keyed by the
strings the schedulers use (`"fiveDaySent"`, `"oneDaySent"`,
`"5DaySent"`, ...). -/
structure UserSession where
  state : Option SessionState := none
  ticketType : Option TicketType := none
  paymentType : Option PaymentType := none
  installmentPlan : Option InstallmentPlan := none
  email : Option String := none
  appliedCoupon : Option String := none
  originalPrice : Option ℚ := none
  discountedPrice : Option ℚ := none
  ticketId : Option String := none
  amountPaid : Option ℚ := none
  totalPrice : Option ℚ := none
  remainingBalance : Option ℚ := none
  installmentNumber : Option ℕ := none
  totalInstallments : Option ℕ := none
  nextDueDate : Option String := none
  nextDueDateISO : Option String := none
  walletBalance : Option ℚ := none
  reminders : Option (List (String × Bool)) := none
  deriving DecidableEq, Repr

/-- JavaScript truthiness of an optional string: `undefined` and `""` are
falsy, every other string is truthy. -/
def truthyStr : Option String → Bool
  | none => false
  | some s => s ≠ ""

/-- JavaScript truthiness of an optional number: `undefined` and `0` are
falsy. -/
def truthyNum : Option ℚ → Bool
  | none => false
  | some q => q ≠ 0

/-- Ticket metadata (`config/constants.ts` `TICKETS`); prices come from
the environment (`env.gaPrice`, `env.vipPrice`). -/
structure TicketInfo where
  name : String
  price : ℚ
  deriving DecidableEq, Repr

/-- Price configuration read from the environment. -/
structure Config where
  gaPrice : ℚ
  vipPrice : ℚ
  deriving DecidableEq, Repr

/-- The `TICKETS` record of `config/constants.ts`. -/
def TICKETS (cfg : Config) : TicketType → TicketInfo
  | .GA => ⟨"Wave 1: GA", cfg.gaPrice⟩
  | .VIP => ⟨"Wave 1: VIP", cfg.vipPrice⟩

/-- `INSTALLMENT_PLANS` of `config/constants.ts` (hard-coded amounts);
plan C has no schedule (custom plan). -/
def INSTALLMENT_PLANS : TicketType → InstallmentPlan → List ℚ
  | .GA, .A => [367.5, 275.63, 275.62]
  | .GA, .B => [459.38, 459.37]
  | .VIP, .A => [647.0, 485.25, 485.25]
  | .VIP, .B => [808.75, 808.75]
  | _, .C => []

/-- `ValidationError` of `errors/AppError.ts` (code "VALIDATION_ERROR",
status 400, operational); only the user-facing message matters to the
modelled flows. -/
structure ValidationError where
  message : String
  deriving DecidableEq, Repr

/-- `sanitizeInput` of `validators/input.ts`: trim, then strip all angle
brackets. -/
def sanitizeInput (input : String) : String :=
  ⟨(jsTrim input).toList.filter (fun c => c ≠ '<' && c ≠ '>')⟩

/-- `validateTicketType` of `validators/input.ts`. -/
def validateTicketType (input : String) (vipOutOfStock : Bool) :
    Except ValidationError TicketType :=
  let normalized := jsTrim (jsToLower input)
  if normalized = "a" then .ok .GA
  else if normalized = "b" then
    if vipOutOfStock then
      .error ⟨"❌ *VIP tickets are currently out of stock.*\n\nPlease select *A* for GA tickets, or type *menu* to return to the main menu."⟩
    else .ok .VIP
  else
    .error ⟨if vipOutOfStock then "Please reply with *A* to select GA tickets."
            else "Please reply with *A* for GA or *B* for VIP."⟩

/-- `validateInstallmentPlan` of `validators/input.ts`. -/
def validateInstallmentPlan (input : String) :
    Except ValidationError InstallmentPlan :=
  let normalized := jsTrim (jsToLower input)
  if normalized = "a" then .ok .A
  else if normalized = "b" then .ok .B
  else if normalized = "c" then .ok .C
  else .error ⟨"Please reply with *A*, *B*, or *C* to select a plan."⟩

/-- `validateMenuOption` of `validators/input.ts`. -/
def validateMenuOption (input : String) : Except ValidationError String :=
  let normalized := jsTrim input
  if normalized = "1" ∨ normalized = "2" ∨ normalized = "3" ∨ normalized = "4"
  then .ok normalized
  else .error ⟨"Please reply with a number 1-4 to select an option, or type *menu* to see options again."⟩

/-- `validateWalletTransfer` of `validators/input.ts`. -/
def validateWalletTransfer (input : String) : Except ValidationError String :=
  let normalized := jsTrim input
  if normalized = "1" ∨ normalized = "2" ∨ normalized = "3"
  then .ok normalized
  else .error ⟨"Please reply with *1*, *2*, or *3* to choose where to transfer your balance."⟩

/-- Executable rendering of the email test in `validateEmail`
(`/^[^\s@]+@[^\s@]+\.[^\s@]+$/`): a nonempty run of non-whitespace
non-`@` characters, one `@`, then a remainder of non-whitespace non-`@`
characters that contains a `.` neither at its first nor its last
position (so that both `[^\s@]+` around the literal dot are nonempty;
note `.` itself belongs to `[^\s@]`). -/
def emailPatternTest (s : String) : Bool :=
  let cs := s.toList
  match cs.findIdx? (· = '@') with
  | none => false
  | some i =>
    let l := cs.take i
    let r := cs.drop (i + 1)
    !l.isEmpty && l.all (fun c => !c.isWhitespace) &&
    !r.isEmpty && r.all (fun c => !c.isWhitespace && c ≠ '@') &&
    ((r.drop 1).dropLast.contains '.')

/-- `validateEmail` of `validators/input.ts`: trims, shape-checks, and on
success returns the lower-cased trimmed address. -/
def validateEmail (input : String) : Except ValidationError String :=
  let trimmed := jsTrim input
  if emailPatternTest trimmed then .ok (jsToLower trimmed)
  else .error ⟨"That doesn\x27t look like a valid email. Please reply with an email like *name@example.com*."⟩

/-- `VIP_ADDITIONAL_AVAILABLE` of `utils/ticketAvailability.ts`. -/
def VIP_ADDITIONAL_AVAILABLE : ℤ := 50

/-- `isVIPOutOfStock` of `utils/ticketAvailability.ts`, after the lazy
baseline has been initialised: out of stock exactly when the number of
successful VIP sales now, minus the baseline, has reached the additional
allotment of 50. -/
def isVIPOutOfStock (currentVIPSold baseline : ℕ) : Bool :=
  (currentVIPSold : ℤ) - (baseline : ℤ) ≥ VIP_ADDITIONAL_AVAILABLE

/-- `calculateEligibleTier` of `utils/tier.ts` (with `undefined`
`originalTier` propagated: neither strict-equality test matches). -/
def calculateEligibleTier (cfg : Config) (originalTier : Option TicketType)
    (amountPaid : ℚ) : Option TicketType :=
  if originalTier = some .VIP ∧ amountPaid ≥ cfg.gaPrice then some .GA
  else if originalTier = some .GA ∧ amountPaid ≥ cfg.gaPrice then some .GA
  else none

/-- Outbound chat messages, identified by the template the source renders
and the parameters it passes (message-string templating itself is an
external collaborator).  `text` carries the literal reply strings the
handlers send directly (including validator rejection messages relayed
by the error boundary). -/
inductive OutMsg
  | text (s : String)
  | welcome (userName : String)
  | ticketSelection (vipOutOfStock : Bool)
  | ticketConfirmation (t : TicketType)
  | completedStatus (ticketName : String) (ticketId : String) (paidAmount : ℚ)
  | walletBalanceMsg (balance : ℚ)
  | emptyWallet
  | helpSupport
  | emailGotIt (email : String)
  | couponApplied (originalPrice discountedPrice : ℚ)
  | fullPayment (link : String)
  | customPlan
  | installmentPayment (plan : InstallmentPlan) (firstPayment : ℚ) (link : String)
  | walletTransferConfirmation (amount : ℚ) (destination : String) (isDonation : Bool)
  | paymentConfirmation (ticketName : String)
  | deadlineDowngrade (amountPaid originalPrice : ℚ) (downgradedName : String) (walletAmount : ℚ)
  | deadlineRollover (amountPaid originalPrice : ℚ)
  deriving DecidableEq, Repr

/-- What a state handler can throw: a `ValidationError`, or a runtime
`TypeError` (e.g. reading `.name` of `TICKETS[undefined]`). -/
inductive HandlerErr
  | validation (e : ValidationError)
  | typeError
  deriving DecidableEq, Repr

/-- Result of running one state handler on the in-memory session object:
the session object as mutated up to the point the handler returned or
threw, the replies sent so far, and the error thrown (if any). -/
structure HandlerOut where
  session : UserSession
  replies : List OutMsg
  err : Option HandlerErr := none
  deriving DecidableEq, Repr

/-- The environment a single inbound-message dispatch runs in: prices,
the availability-gate answer observed during this dispatch, the user's
display name, and the payment link the backend returns for this
dispatch. -/
structure Env where
  cfg : Config
  vipOutOfStock : Bool
  userName : String
  paymentLink : String
  deriving DecidableEq, Repr

/-- `handleCheckPaymentStatus` of `handlers/status.ts` (read-only report;
with a truthy `ticketId` but no `ticketType` the source dereferences
`TICKETS[undefined].name` and throws a `TypeError`).  JS truthiness:
`session.totalPrice ? session.totalPrice : ticket.price` falls back to
the ticket price when `totalPrice` is `undefined` or `0`. -/
def handleCheckPaymentStatus (cfg : Config) (s : UserSession) : HandlerOut :=
  if truthyStr s.ticketId then
    match s.ticketType with
    | none => ⟨s, [], some .typeError⟩
    | some tt =>
      let ticket := TICKETS cfg tt
      let paidAmount := match s.totalPrice with
        | some p => if p ≠ 0 then p else ticket.price
        | none => ticket.price
      ⟨s, [.completedStatus ticket.name (s.ticketId.getD "") paidAmount], none⟩
  else if truthyNum s.amountPaid ∧ (s.amountPaid.getD 0) > 0 then
    ⟨s, [.text "💳 We see a payment in progress on your account.\n\nInstallment plans are no longer supported via this bot. Please contact support if you need help completing your payment."], none⟩
  else
    ⟨s, [.text "You don\x27t have any tickets yet.\n\nType *1* to buy a ticket!"], none⟩

/-- `handleWalletBalance` of `handlers/wallet.ts`: shows the balance and
moves to `WALLET_TRANSFER` only when the balance is positive. -/
def handleWalletBalance (s : UserSession) : HandlerOut :=
  let walletBalance := s.walletBalance.getD 0
  if walletBalance > 0 then
    ⟨{ s with state := SESSION_STATES.WALLET_TRANSFER }, [.walletBalanceMsg walletBalance], none⟩
  else
    ⟨s, [.emptyWallet], none⟩

/-- `handleMainMenu` of `handlers/menu.ts`. -/
def handleMainMenu (env : Env) (userMessage : String) (s : UserSession) : HandlerOut :=
  match validateMenuOption userMessage with
  | .error e => ⟨s, [], some (.validation e)⟩
  | .ok option =>
    if option = "1" then
      ⟨{ s with state := SESSION_STATES.SELECT_TICKET }, [.ticketSelection env.vipOutOfStock], none⟩
    else if option = "2" then
      handleCheckPaymentStatus env.cfg s
    else if option = "3" then
      handleWalletBalance s
    else if option = "4" then
      ⟨{ s with state := SESSION_STATES.MAIN_MENU }, [.helpSupport], none⟩
    else
      ⟨s, [], none⟩

/-- `handleTicketSelection` of `handlers/ticket.ts` (availability-gated
variant): an out-of-stock VIP pick is answered with the out-of-stock
message without throwing; otherwise the validator decides, and on
success the handler records tier, price and `paymentType = full` and
advances to `AWAITING_EMAIL`. -/
def handleTicketSelection (env : Env) (userMessage : String) (s : UserSession) : HandlerOut :=
  let normalized := jsTrim (jsToLower userMessage)
  if env.vipOutOfStock ∧ (normalized = "b" ∨ normalized = "vip") then
    ⟨s, [.text "❌ *VIP tickets are currently out of stock.*\n\nPlease select *A* for GA tickets, or type *menu* to return to the main menu."], none⟩
  else
    match validateTicketType userMessage env.vipOutOfStock with
    | .error e => ⟨s, [], some (.validation e)⟩
    | .ok ticketType =>
      ⟨{ s with ticketType := some ticketType,
                totalPrice := some (TICKETS env.cfg ticketType).price,
                paymentType := some .full,
                state := SESSION_STATES.AWAITING_EMAIL },
        [.ticketConfirmation ticketType], none⟩

/-- `handleEmailCollection` of `handlers/payment.ts`: validates the raw
message as an email, records it, and assigns
`session.state = SESSION_STATES.AWAITING_COUPON_ANSWER` — a key the
constants object does not have, so the state becomes `undefined`
(`none`).  (The email is also written onto the user record itself, which
is outside the session document.) -/
def handleEmailCollection (userMessage : String) (s : UserSession) : HandlerOut :=
  match validateEmail userMessage with
  | .error e => ⟨s, [], some (.validation e)⟩
  | .ok email =>
    ⟨{ s with email := some email, state := SESSION_STATES.AWAITING_COUPON_ANSWER },
      [.emailGotIt email], none⟩

/-- `handleInstallmentPlanSelection` of `handlers/installment.ts`:
`validateSessionForPayment` first (JS truthiness on `ticketType` and
`totalPrice`), then the plan validator; plan C returns to the main menu,
plans A/B set up the first installment and move to `AWAITING_PAYMENT`. -/
def handleInstallmentPlanSelection (env : Env) (userMessage : String)
    (s : UserSession) : HandlerOut :=
  match s.ticketType with
  | none => ⟨s, [], some (.validation ⟨"Session error: No ticket type selected. Please start over by typing *menu*."⟩)⟩
  | some tt =>
    if ¬ truthyNum s.totalPrice then
      ⟨s, [], some (.validation ⟨"Session error: No ticket price found. Please start over by typing *menu*."⟩)⟩
    else
      match validateInstallmentPlan userMessage with
      | .error e => ⟨s, [], some (.validation e)⟩
      | .ok plan =>
        if plan = .C then
          ⟨{ s with installmentPlan := some plan, state := SESSION_STATES.MAIN_MENU },
            [.customPlan], none⟩
        else
          let selectedPlan := INSTALLMENT_PLANS tt plan
          let firstPayment := selectedPlan.headD 0
          ⟨{ s with installmentPlan := some plan,
                    installmentNumber := some 1,
                    totalInstallments := some selectedPlan.length,
                    amountPaid := some 0,
                    totalPrice := some (TICKETS env.cfg tt).price,
                    state := SESSION_STATES.AWAITING_PAYMENT },
            [.installmentPayment plan firstPayment env.paymentLink], none⟩

/-- `handleWalletTransfer` of `handlers/wallet.ts`: validates the
destination option, performs the external transfer, then zeroes
`walletBalance` and returns to the main menu. -/
def handleWalletTransfer (userMessage : String) (s : UserSession) : HandlerOut :=
  match validateWalletTransfer userMessage with
  | .error e => ⟨s, [], some (.validation e)⟩
  | .ok option =>
    let walletBalance := s.walletBalance.getD 0
    let destination :=
      if option = "1" then "AfroFuture 2026"
      else if option = "2" then "AfroFuture Weekender"
      else if option = "3" then "AfroFuture Foundation"
      else ""
    ⟨{ s with walletBalance := some 0, state := SESSION_STATES.MAIN_MENU },
      [.walletTransferConfirmation walletBalance destination (option = "3")], none⟩

/-- The session value `resetToMainMenu` of `utils/session.ts` persists:
the whole session document is replaced by `{ state: MAIN_MENU }` — every
other field (purchase fields, wallet balance, reminder flags) is gone. -/
def resetToMainMenu : UserSession :=
  { state := SESSION_STATES.MAIN_MENU }

/-- The state handler the `switch` of `handlers/message.ts` dispatches
to, as a raw `HandlerOut` (before the error boundary); `none` when the
current state has no handler case (`AWAITING_PAYMENT`'s static reply and
the `default` branch are handled by `handleMessage` itself). The
dispatcher passes the sanitized lower-cased text to every handler except
email collection, which receives the raw message. -/
def routeHandler (env : Env) (msg userMessage : String) (s : UserSession) :
    Option HandlerOut :=
  if s.state = SESSION_STATES.MAIN_MENU then
    some (handleMainMenu env msg s)
  else if s.state = SESSION_STATES.SELECT_TICKET then
    some (handleTicketSelection env msg s)
  else if s.state = SESSION_STATES.AWAITING_EMAIL then
    some (handleEmailCollection userMessage s)
  else if s.state = SESSION_STATES.SELECT_INSTALLMENT_PLAN then
    some (handleInstallmentPlanSelection env msg s)
  else if s.state = SESSION_STATES.WALLET_TRANSFER then
    some (handleWalletTransfer msg s)
  else
    none

/-- The reply the error boundary `handleError` of
`errors/errorHandler.ts` sends: an operational `AppError`'s own message,
a generic apology otherwise. -/
def errorReply : HandlerErr → String
  | .validation e => e.message
  | .typeError => "Sorry, something went wrong. Please try again or contact support."

/-- The outcome of one inbound-message dispatch: the session as persisted
in the store afterwards, and the replies sent. -/
structure StepResult where
  session : UserSession
  replies : List OutMsg
  deriving DecidableEq, Repr

/-- `handleMessage` of `handlers/message.ts`: sanitize and lower-case;
`menu`/`start` hard-reset via `resetToMainMenu` and re-send the welcome
text; `WELCOME` shows the menu and merges `{ state: MAIN_MENU }` without
wiping other fields; otherwise the state's handler runs and, only if it
returns without throwing, the mutated session is written back
(`updateSession`); `AWAITING_PAYMENT` only gets a static reply with no
write; an unroutable state falls to the default branch (welcome text,
merge `{ state: MAIN_MENU }`).  A throw is caught by the per-message
error boundary: the store is left untouched and `handleError` replies. -/
def handleMessage (env : Env) (userMessage : String) (s : UserSession) : StepResult :=
  let msg := jsToLower (sanitizeInput userMessage)
  if msg = "menu" ∨ msg = "start" then
    ⟨resetToMainMenu, [.welcome env.userName]⟩
  else if s.state = SESSION_STATES.WELCOME then
    ⟨{ s with state := SESSION_STATES.MAIN_MENU }, [.welcome env.userName]⟩
  else
    match routeHandler env msg userMessage s with
    | some h =>
      match h.err with
      | none => ⟨h.session, h.replies⟩
      | some e => ⟨s, h.replies ++ [.text (errorReply e)]⟩
    | none =>
      if s.state = SESSION_STATES.AWAITING_PAYMENT then
        ⟨s, [.text "⏳ Please complete your payment using the link provided. Once confirmed, you\x27ll receive your ticket automatically."]⟩
      else
        ⟨{ s with state := SESSION_STATES.MAIN_MENU }, [.welcome env.userName]⟩

/-- Payment-record lifecycle statuses (spec §3; the handlers compare
against `"pending"` and write `"success"`). -/
inductive PaymentStatus
  | pending
  | success
  | failed
  | abandoned
  deriving DecidableEq, Repr

/-- The metadata bag attached to a payment-link attempt, as consumed by
`processPaymentSuccess` (only `metadata.ticketType` is read). -/
structure PayMetadata where
  ticketType : Option TicketType := none
  deriving DecidableEq, Repr

/-- A Payment record (one per payment-link attempt). -/
structure Payment where
  paystackReference : String
  chatId : String
  amount : ℚ
  status : PaymentStatus
  paidAt : Option ℤ := none
  metadata : PayMetadata := {}
  deriving DecidableEq, Repr

/-- The provider's answer to `paystackService.verifyPayment`. -/
structure Verification where
  status : String
  paidAt : ℤ := 0
  deriving DecidableEq, Repr

/-- `processPaymentSuccess` of the webhook controller: no-op when the
user record is missing; the effective ticket type is
`metadata.ticketType || session.ticketType` and must be GA or VIP;
otherwise the session is merge-updated with `amountPaid`,
`remainingBalance = 0` and `state = MAIN_MENU`, and one confirmation
message is sent. -/
def processPaymentSuccess (cfg : Config) (amount : ℚ) (metadata : PayMetadata)
    (userExists : Bool) (s : UserSession) : UserSession × List OutMsg :=
  if ¬ userExists then (s, [])
  else
    match metadata.ticketType.orElse (fun _ => s.ticketType) with
    | none => (s, [])
    | some ticketType =>
      ({ s with amountPaid := some amount,
                remainingBalance := some 0,
                state := SESSION_STATES.MAIN_MENU },
        [.paymentConfirmation (TICKETS cfg ticketType).name])

/-- Outcome of a webhook or callback request: the payment record as
stored afterwards, the session as stored afterwards, the chat messages
sent, and the HTTP status answered to the caller. -/
structure WebhookResult where
  payment : Option Payment
  session : UserSession
  messages : List OutMsg
  httpStatus : ℕ
  deriving DecidableEq, Repr

/-- `handlePaystackWebhook`: reject a bad signature with 401; on a
`charge.success` event, verify with the provider, and only if the
matched Payment record is still `pending`, mark it `success`, stamp
`paidAt`, and run `processPaymentSuccess`; in every non-401 case answer
200. -/
def handlePaystackWebhook (cfg : Config) (sigValid : Bool) (eventType : String)
    (verification : Verification) (payment : Option Payment)
    (userExists : Bool) (s : UserSession) : WebhookResult :=
  if ¬ sigValid then ⟨payment, s, [], 401⟩
  else if eventType = "charge.success" then
    if verification.status = "success" then
      match payment with
      | some p =>
        if p.status = .pending then
          let p2 : Payment := { p with status := .success, paidAt := some verification.paidAt }
          let r := processPaymentSuccess cfg p.amount p.metadata userExists s
          ⟨some p2, r.1, r.2, 200⟩
        else ⟨some p, s, [], 200⟩
      | none => ⟨none, s, [], 200⟩
    else ⟨payment, s, [], 200⟩
  else ⟨payment, s, [], 200⟩

/-- `handlePaymentCallback` (redirect with a reference): re-verify
against the provider; on success reconcile exactly like the webhook and
answer 200, otherwise answer 400 and change nothing. -/
def handlePaymentCallback (cfg : Config) (verification : Verification)
    (payment : Option Payment) (userExists : Bool) (s : UserSession) : WebhookResult :=
  if verification.status = "success" then
    match payment with
    | some p =>
      if p.status = .pending then
        let p2 : Payment := { p with status := .success, paidAt := some verification.paidAt }
        let r := processPaymentSuccess cfg p.amount p.metadata userExists s
        ⟨some p2, r.1, r.2, 200⟩
      else ⟨some p, s, [], 200⟩
    | none => ⟨none, s, [], 200⟩
  else ⟨payment, s, [], 400⟩

/-- Coupon discount types (`models/Coupon.ts` schema enum). -/
inductive DiscountType
  | percentage
  | fixed
  deriving DecidableEq, Repr

/-- A coupon document (`models/Coupon.ts`): `maxUsage = none` and
`expiryDate = none` model the schema's `null` defaults (unlimited /
no expiry). -/
structure Coupon where
  code : String
  discountType : DiscountType
  discountValue : ℚ
  isActive : Bool := true
  usageCount : ℕ := 0
  maxUsage : Option ℕ := none
  expiryDate : Option ℤ := none
  deriving DecidableEq, Repr

/-- `handleCouponCode` of `handlers/payment.ts`: upper-case the code and
look it up among active coupons (`findOne({ code, isActive: true })`);
a missing coupon, an exhausted usage ceiling or a passed expiry date
each move to `AWAITING_CONTINUE_ANSWER` — again a key the constants
object lacks, so the state written is `undefined` — with the matching
reply; a valid coupon computes the discounted price (percentage:
`price * (1 - value/100)`; fixed: `max 0 (price - value)`), records the
coupon fields and continues into `generatePayment` (payment link at the
discounted amount, state `AWAITING_PAYMENT`).  With no `ticketType` on
the session, `TICKETS[undefined].price` throws before any mutation. -/
def handleCouponCode (cfg : Config) (lookup : String → Option Coupon)
    (now : ℤ) (link : String) (userMessage : String) (s : UserSession) : HandlerOut :=
  let code := jsToUpper userMessage
  let coupon := match lookup code with
    | some c => if c.isActive then some c else none
    | none => none
  match coupon with
  | none =>
    ⟨{ s with state := SESSION_STATES.AWAITING_CONTINUE_ANSWER },
      [.text "❌ Coupon not found or expired. Would you like to *continue* with the original price? (Reply *Yes* or *No*)"], none⟩
  | some c =>
    if (match c.maxUsage with | some m => decide (c.usageCount ≥ m) | none => false) then
      ⟨{ s with state := SESSION_STATES.AWAITING_CONTINUE_ANSWER },
        [.text "⚠️ This coupon has reached its maximum usage limit. Would you like to *continue* with the original price? (Reply *Yes* or *No*)"], none⟩
    else if (match c.expiryDate with | some d => decide (now > d) | none => false) then
      ⟨{ s with state := SESSION_STATES.AWAITING_CONTINUE_ANSWER },
        [.text "⚠️ This coupon has expired. Would you like to *continue* with the original price? (Reply *Yes* or *No*)"], none⟩
    else
      match s.ticketType with
      | none => ⟨s, [], some .typeError⟩
      | some tt =>
        let originalPrice := (TICKETS cfg tt).price
        let discountedPrice := match c.discountType with
          | .percentage => originalPrice * (1 - c.discountValue / 100)
          | .fixed => max 0 (originalPrice - c.discountValue)
        ⟨{ s with appliedCoupon := some code,
                  originalPrice := some originalPrice,
                  discountedPrice := some discountedPrice,
                  state := SESSION_STATES.AWAITING_PAYMENT },
          [.couponApplied originalPrice discountedPrice, .fullPayment link], none⟩

/-- One session's share of `checkDeadlines` (`schedulers/deadlines.ts`):
nothing happens up to and including the configured cutoff instant;
sessions with a truthy `ticketId` or an already-assigned `walletBalance`
are skipped, as are sessions without positive `amountPaid` and positive
`remainingBalance`.  Otherwise the eligible tier decides: downgrade
(wallet credit = paid minus the downgraded tier's price, notify, state
`WALLET_TRANSFER`) or full rollover (wallet credit = full amount paid,
notify, same state).  With no `ticketType` the rollover branch assigns
`walletBalance` and then throws a `TypeError` building the notification
(`originalTicket.price`), which the per-user catch swallows — the
already-mutated in-memory session keeps the wallet credit but no state
change and no message. -/
def checkDeadlinesSession (cfg : Config) (now deadline : ℤ)
    (s : UserSession) : UserSession × List OutMsg :=
  if now ≤ deadline then (s, [])
  else if truthyStr s.ticketId ∨ s.walletBalance ≠ none then (s, [])
  else
    match s.amountPaid, s.remainingBalance with
    | some a, some r =>
      if a > 0 ∧ r > 0 then
        match s.ticketType with
        | none => ({ s with walletBalance := some a }, [])
        | some ot =>
          match calculateEligibleTier cfg (some ot) a with
          | some tier =>
            let walletAmount := a - (TICKETS cfg tier).price
            ({ s with walletBalance := some walletAmount,
                      state := SESSION_STATES.WALLET_TRANSFER },
              [.deadlineDowngrade a (TICKETS cfg ot).price (TICKETS cfg tier).name walletAmount])
          | none =>
            ({ s with walletBalance := some a,
                      state := SESSION_STATES.WALLET_TRANSFER },
              [.deadlineRollover a (TICKETS cfg ot).price])
      else (s, [])
    | _, _ => (s, [])

/-- Look up a reminder sent flag in the session's flag bag
(`session.reminders?.[key]`, falsy when the bag or the key is absent). -/
def remGet (r : List (String × Bool)) (key : String) : Bool :=
  (r.lookup key).getD false

/-- Assign `session.reminders[key] = true`. -/
def remSet (r : List (String × Bool)) (key : String) : List (String × Bool) :=
  (key, true) :: r

/-- The sent flag of threshold `key` on a session. -/
def sentFlag (s : UserSession) (key : String) : Bool :=
  remGet (s.reminders.getD []) key

/-- An active `payment_due` reminder template as used by the sweep
(only `triggerDays` steers control flow; skipped when `undefined` or 0,
both falsy). -/
structure RemTemplate where
  triggerDays : Option ℤ := none
  deriving DecidableEq, Repr

/-- The template loop of `checkReminders`: walk the templates in the
given order; skip falsy `triggerDays`; at the first template whose
trigger-day count equals today's days-left and whose per-threshold flag
(`"{triggerDays}DaySent"`) is not yet set, send, set the flag, and
break.  Returns the threshold key sent and the updated flag bag, or
`none` when no template fired. -/
def runTemplates (daysLeft : ℤ) (r : List (String × Bool)) :
    List RemTemplate → Option (String × List (String × Bool))
  | [] => none
  | t :: ts =>
    match t.triggerDays with
    | none => runTemplates daysLeft r ts
    | some td =>
      if td = 0 then runTemplates daysLeft r ts
      else
        let key := toString td ++ "DaySent"
        if daysLeft = td ∧ remGet r key = false then some (key, remSet r key)
        else runTemplates daysLeft r ts

/-- One user's share of one run of `checkReminders`
(`schedulers/reminders.ts`, template-driven variant): skip users with no
due date, a truthy `ticketId`, or no positive `remainingBalance`.
Otherwise try the templates; if none fired, fall back to the fixed
5-day (`2 ≤ daysLeft ≤ 5`, flag `"fiveDaySent"`) and 1-day
(`daysLeft = 1`, flag `"oneDaySent"`) reminders under the same
flag-guarded discipline.  The session is saved only when at least one
send happened; the result's second component lists the threshold keys
sent this run. -/
def checkRemindersUser (templates : List RemTemplate) (daysLeft : ℤ)
    (s : UserSession) : UserSession × List String :=
  if (!truthyStr s.nextDueDateISO || truthyStr s.ticketId ||
      !(match s.remainingBalance with | some r => decide (r > 0) | none => false)) then
    (s, [])
  else
    let r0 := s.reminders.getD []
    match runTemplates daysLeft r0 templates with
    | some (key, r1) => ({ s with reminders := some r1 }, [key])
    | none =>
      let fire5 := daysLeft ≤ 5 ∧ 1 < daysLeft ∧ remGet r0 "fiveDaySent" = false
      let r1 := if fire5 then remSet r0 "fiveDaySent" else r0
      let k1 : List String := if fire5 then ["fiveDaySent"] else []
      let fire1 := daysLeft = 1 ∧ remGet r1 "oneDaySent" = false
      let r2 := if fire1 then remSet r1 "oneDaySent" else r1
      let k2 : List String := if fire1 then ["oneDaySent"] else []
      if k1 ++ k2 = [] then (s, [])
      else ({ s with reminders := some r2 }, k1 ++ k2)

/-- The core operations that write the session document: inbound-message
handling, webhook/callback reconciliation, and the two scheduler
sweeps. -/
inductive CoreOp
  | msg (env : Env) (userMessage : String)
  | webhook (cfg : Config) (sigValid : Bool) (eventType : String)
      (verification : Verification) (payment : Option Payment) (userExists : Bool)
  | callback (cfg : Config) (verification : Verification)
      (payment : Option Payment) (userExists : Bool)
  | deadline (cfg : Config) (now cutoff : ℤ)
  | reminder (templates : List RemTemplate) (daysLeft : ℤ)

/-- The session written by one core operation. -/
def applyOp (s : UserSession) : CoreOp → UserSession
  | .msg env userMessage => (handleMessage env userMessage s).session
  | .webhook cfg sigValid eventType verification payment userExists =>
    (handlePaystackWebhook cfg sigValid eventType verification payment userExists s).session
  | .callback cfg verification payment userExists =>
    (handlePaymentCallback cfg verification payment userExists s).session
  | .deadline cfg now cutoff => (checkDeadlinesSession cfg now cutoff s).1
  | .reminder templates daysLeft => (checkRemindersUser templates daysLeft s).1

/-- The settled-purchase invariant of spec §3: a present `ticketId`
implies the remaining balance is 0 or absent. -/
def ticketSettled (s : UserSession) : Prop :=
  s.ticketId.isSome → s.remainingBalance = none ∨ s.remainingBalance = some 0

/-- `s2` carries the same `ticketId` and `remainingBalance` as `s` (the
operation that produced `s2` from `s` touched neither field). -/
def preservesSettledFields (s s2 : UserSession) : Prop :=
  s2.ticketId = s.ticketId ∧ s2.remainingBalance = s.remainingBalance

/-- C7: the availability gate reports VIP available exactly when
(successful sales now − baseline) < 50; at `baseline + 49` sold the
ticket-type validator accepts the VIP selector "b" (case-insensitively)
and returns VIP, at `baseline + 50` or more it rejects "b" with the
out-of-stock message; the selector "a" is always accepted as GA
regardless of availability. -/
theorem vip_gate_validator_agreement (sold baseline : ℕ) (input : String) :
    (isVIPOutOfStock sold baseline = false ↔ (sold : ℤ) - (baseline : ℤ) < 50) ∧
    (sold = baseline + 49 → isVIPOutOfStock sold baseline = false) ∧
    (baseline + 50 ≤ sold → isVIPOutOfStock sold baseline = true) ∧
    (jsTrim (jsToLower input) = "b" →
      (isVIPOutOfStock sold baseline = false →
        validateTicketType input (isVIPOutOfStock sold baseline) = .ok .VIP) ∧
      (isVIPOutOfStock sold baseline = true →
        validateTicketType input (isVIPOutOfStock sold baseline) =
          .error ⟨"❌ *VIP tickets are currently out of stock.*\n\nPlease select *A* for GA tickets, or type *menu* to return to the main menu."⟩)) ∧
    (jsTrim (jsToLower input) = "a" →
      ∀ b : Bool, validateTicketType input b = .ok .GA) := by
  refine ⟨?_, ?_, ?_, ?_, ?_⟩
  · simp only [isVIPOutOfStock, VIP_ADDITIONAL_AVAILABLE, decide_eq_false_iff_not]
    omega
  · intro h
    subst h
    simp only [isVIPOutOfStock, VIP_ADDITIONAL_AVAILABLE, decide_eq_false_iff_not]
    omega
  · intro h
    simp only [isVIPOutOfStock, VIP_ADDITIONAL_AVAILABLE, decide_eq_true_eq]
    omega
  · intro h
    constructor <;> intro hstock <;> rw [hstock] <;> simp [validateTicketType, h]
  · intro h b
    simp [validateTicketType, h]

/-- Witness for C7 at concrete counts: with baseline 7, at 56 sold
(baseline + 49) "B" is accepted as VIP, at 57 sold (baseline + 50) "B"
is rejected with the out-of-stock message, and "a" is still accepted. -/
theorem vip_gate_validator_agreement_witness :
    jsTrim (jsToLower "B") = "b" ∧
    isVIPOutOfStock 56 7 = false ∧
    isVIPOutOfStock 57 7 = true ∧
    validateTicketType "B" (isVIPOutOfStock 56 7) = .ok .VIP ∧
    validateTicketType "B" (isVIPOutOfStock 57 7) =
      .error ⟨"❌ *VIP tickets are currently out of stock.*\n\nPlease select *A* for GA tickets, or type *menu* to return to the main menu."⟩ ∧
    validateTicketType "a" (isVIPOutOfStock 57 7) = .ok .GA :=
  ⟨by decide, by decide, by decide,
    ((vip_gate_validator_agreement 56 7 "B").2.2.2.1 (by decide)).1 (by decide),
    ((vip_gate_validator_agreement 57 7 "B").2.2.2.1 (by decide)).2 (by decide),
    (vip_gate_validator_agreement 57 7 "a").2.2.2.2 (by decide) (isVIPOutOfStock 57 7)⟩

/-- C10: a correctly-signed webhook request whose event type is not
"charge.success" modifies no Payment record and no Session, sends no
chat message, and still acknowledges with a 200 response. -/
theorem webhook_other_events_are_acknowledged_noops
    (cfg : Config) (eventType : String) (verification : Verification)
    (payment : Option Payment) (userExists : Bool) (s : UserSession)
    (h : eventType ≠ "charge.success") :
    handlePaystackWebhook cfg true eventType verification payment userExists s =
      ⟨payment, s, [], 200⟩ := by
  simp [handlePaystackWebhook, h]

/-- Witness for C10: a signed "charge.dispute" event against a pending
payment record is acknowledged with 200 and changes nothing. -/
theorem webhook_other_events_are_acknowledged_noops_witness :
    ("charge.dispute" : String) ≠ "charge.success" ∧
    handlePaystackWebhook ⟨918.75, 1293.75⟩ true "charge.dispute" ⟨"success", 0⟩
        (some ⟨"ref1", "chat1", 918.75, .pending, none, {}⟩) true
        { state := SESSION_STATES.AWAITING_PAYMENT } =
      ⟨some ⟨"ref1", "chat1", 918.75, .pending, none, {}⟩,
        { state := SESSION_STATES.AWAITING_PAYMENT }, [], 200⟩ :=
  ⟨by decide,
    webhook_other_events_are_acknowledged_noops ⟨918.75, 1293.75⟩ "charge.dispute"
      ⟨"success", 0⟩ (some ⟨"ref1", "chat1", 918.75, .pending, none, {}⟩) true
      { state := SESSION_STATES.AWAITING_PAYMENT } (by decide)⟩

/-- C1: reconciliation is idempotent.  (i) A Payment record that is not
`pending` (i.e. already terminal) is never re-processed: both the
webhook and the callback leave the record and the session unchanged and
send no message (the webhook still acknowledges 200 when signed, 401
when not; the callback answers 200/400 by verification outcome).
(ii) The webhook changes the stored record only when it was `pending`.
(iii) Replay: whatever record a first webhook delivery leaves behind, if
that delivery changed the record then a second delivery of any event
against it changes neither the record nor the session and sends no
second confirmation message. -/
theorem payment_reconciliation_idempotent
    (cfg : Config) (sigValid : Bool) (eventType : String)
    (verification : Verification) (p : Payment) (userExists : Bool)
    (s : UserSession) :
    (p.status ≠ .pending →
      handlePaystackWebhook cfg sigValid eventType verification (some p) userExists s =
        ⟨some p, s, [], if sigValid then 200 else 401⟩ ∧
      handlePaymentCallback cfg verification (some p) userExists s =
        ⟨some p, s, [], if verification.status = "success" then 200 else 400⟩) ∧
    ((handlePaystackWebhook cfg sigValid eventType verification (some p) userExists s).payment
        ≠ some p → p.status = .pending) ∧
    (∀ (p2 : Payment),
      (handlePaystackWebhook cfg sigValid eventType verification (some p) userExists s).payment
        = some p2 →
      p2 ≠ p →
      ∀ (sigValid2 : Bool) (eventType2 : String) (verification2 : Verification)
        (userExists2 : Bool) (s2 : UserSession),
        handlePaystackWebhook cfg sigValid2 eventType2 verification2 (some p2) userExists2 s2 =
          ⟨some p2, s2, [], if sigValid2 then 200 else 401⟩) := by
  have key : ∀ (q : Payment), q.status ≠ .pending →
      ∀ (sv : Bool) (ev : String) (vf : Verification) (ue : Bool) (t : UserSession),
      handlePaystackWebhook cfg sv ev vf (some q) ue t =
        ⟨some q, t, [], if sv then 200 else 401⟩ := by
    intro q hq sv ev vf ue t
    unfold handlePaystackWebhook
    by_cases hsv : sv <;> simp [hsv]
    intro _ _ h3
    exact absurd h3 hq
  have pay_cases : ∀ (sv : Bool) (ev : String) (vf : Verification) (ue : Bool) (t : UserSession),
      (handlePaystackWebhook cfg sv ev vf (some p) ue t).payment = some p ∨
      (handlePaystackWebhook cfg sv ev vf (some p) ue t).payment =
        some { p with status := .success, paidAt := some vf.paidAt } ∧ p.status = .pending := by
    intro sv ev vf ue t
    unfold handlePaystackWebhook
    by_cases hsv : sv
    all_goals simp [hsv]
    all_goals split_ifs
    all_goals simp_all
  refine ⟨?_, ?_, ?_⟩
  · intro hterm
    refine ⟨key p hterm sigValid eventType verification userExists s, ?_⟩
    unfold handlePaymentCallback
    split_ifs with hv <;> simp_all
  · intro hchanged
    by_contra hterm
    exact hchanged (by rw [key p hterm sigValid eventType verification userExists s])
  · intro p2 hout hne sigValid2 eventType2 verification2 userExists2 s2
    have hstat : p2.status = .success := by
      rcases pay_cases sigValid eventType verification userExists s with h | ⟨h, _⟩
      all_goals rw [hout] at h
      · exact absurd (Option.some_injective _ h) hne
      · rw [Option.some_injective _ h]
    exact key p2 (by simp [hstat]) sigValid2 eventType2 verification2 userExists2 s2

/-- Witness for C1: a terminal (already-successful) record is untouched
by a replayed `charge.success` webhook; a pending record is transitioned
by a first delivery, and the delivery of the same event against the
transitioned record changes nothing and sends no second confirmation. -/
theorem payment_reconciliation_idempotent_witness :
    (PaymentStatus.success ≠ PaymentStatus.pending) ∧
    handlePaystackWebhook ⟨918, 1293⟩ true "charge.success" ⟨"success", 7⟩
        (some ⟨"ref2", "chat2", 918, .success, some 5, {}⟩) true
        { state := SESSION_STATES.MAIN_MENU } =
      ⟨some ⟨"ref2", "chat2", 918, .success, some 5, {}⟩,
        { state := SESSION_STATES.MAIN_MENU }, [], 200⟩ ∧
    (handlePaystackWebhook ⟨918, 1293⟩ true "charge.success" ⟨"success", 7⟩
        (some ⟨"ref3", "chat3", 918, .pending, none, ⟨some .GA⟩⟩) true
        { state := SESSION_STATES.AWAITING_PAYMENT, ticketType := some .GA }).payment =
      some ⟨"ref3", "chat3", 918, .success, some 7, ⟨some .GA⟩⟩ ∧
    handlePaystackWebhook ⟨918, 1293⟩ true "charge.success" ⟨"success", 9⟩
        (some ⟨"ref3", "chat3", 918, .success, some 7, ⟨some .GA⟩⟩) true
        { state := SESSION_STATES.MAIN_MENU, ticketType := some .GA } =
      ⟨some ⟨"ref3", "chat3", 918, .success, some 7, ⟨some .GA⟩⟩,
        { state := SESSION_STATES.MAIN_MENU, ticketType := some .GA }, [], 200⟩ :=
  ⟨by decide,
    (payment_reconciliation_idempotent ⟨918, 1293⟩ true "charge.success" ⟨"success", 7⟩
      ⟨"ref2", "chat2", 918, .success, some 5, {}⟩ true
      { state := SESSION_STATES.MAIN_MENU }).1 (by decide) |>.1,
    by decide,
    (payment_reconciliation_idempotent ⟨918, 1293⟩ true "charge.success" ⟨"success", 9⟩
      ⟨"ref3", "chat3", 918, .success, some 7, ⟨some .GA⟩⟩ true
      { state := SESSION_STATES.MAIN_MENU, ticketType := some .GA }).1 (by decide) |>.1⟩

/-- C2 (code bug): a session in state `AWAITING_EMAIL` receiving a valid
email is persisted with `state = undefined` — outside the enumerated
state set — because `handlers/payment.ts` assigns
`SESSION_STATES.AWAITING_COUPON_ANSWER`, a key the constants object of
`config/constants.ts` does not define. -/
theorem email_collection_persists_undefined_state :
    (handleMessage ⟨⟨918.75, 1293.75⟩, false, "Ada", "https://pay.example/x"⟩
        "user@example.com" { state := SESSION_STATES.AWAITING_EMAIL }).session.state = none ∧
    (handleMessage ⟨⟨918.75, 1293.75⟩, false, "Ada", "https://pay.example/x"⟩
        "user@example.com" { state := SESSION_STATES.AWAITING_EMAIL }).session.email =
      some "user@example.com" := by
  constructor
  · decide
  · decide

/-- Counterexample to C3 as stated: typing "menu" from `WALLET_TRANSFER`
with a rolled-over wallet credit of 81.25 persists a session whose
`walletBalance` is gone (`undefined`), not the 81.25 it held before the
reset. -/
theorem menu_reset_clears_wallet_balance_cex :
    (handleMessage ⟨⟨918.75, 1293.75⟩, false, "Ada", "https://pay.example/x"⟩ "menu"
        { state := SESSION_STATES.WALLET_TRANSFER,
          walletBalance := some 81.25 }).session.walletBalance = none ∧
    (handleMessage ⟨⟨918.75, 1293.75⟩, false, "Ada", "https://pay.example/x"⟩ "menu"
        { state := SESSION_STATES.WALLET_TRANSFER,
          walletBalance := some 81.25 }).session.walletBalance ≠ some 81.25 := by
  constructor
  · decide
  · decide

/-- C3 (amended): a message equal to "menu" or "start" after
sanitization and lower-casing, from any state, persists exactly
`{ state: MAIN_MENU }` and re-sends the welcome text: every in-flight
purchase field is cleared, and so are `walletBalance` and the reminder
flags (the hard reset replaces the whole session document). -/
theorem menu_reset_hard_clears (env : Env) (userMessage : String) (s : UserSession)
    (h : jsToLower (sanitizeInput userMessage) = "menu" ∨
         jsToLower (sanitizeInput userMessage) = "start") :
    handleMessage env userMessage s = ⟨resetToMainMenu, [.welcome env.userName]⟩ ∧
    resetToMainMenu.state = SESSION_STATES.MAIN_MENU ∧
    resetToMainMenu.ticketType = none ∧
    resetToMainMenu.paymentType = none ∧
    resetToMainMenu.installmentPlan = none ∧
    resetToMainMenu.email = none ∧
    resetToMainMenu.appliedCoupon = none ∧
    resetToMainMenu.originalPrice = none ∧
    resetToMainMenu.discountedPrice = none ∧
    resetToMainMenu.totalPrice = none ∧
    resetToMainMenu.installmentNumber = none ∧
    resetToMainMenu.totalInstallments = none ∧
    resetToMainMenu.walletBalance = none := by
  refine ⟨?_, by decide, by decide, by decide, by decide, by decide, by decide,
    by decide, by decide, by decide, by decide, by decide, by decide⟩
  unfold handleMessage
  rw [if_pos h]

/-- Witness for C3 (amended): " MENU " from `WALLET_TRANSFER` with a
wallet credit resets the persisted session to `{ state: MAIN_MENU }`. -/
theorem menu_reset_hard_clears_witness :
    (jsToLower (sanitizeInput " MENU ") = "menu" ∨
     jsToLower (sanitizeInput " MENU ") = "start") ∧
    handleMessage ⟨⟨918.75, 1293.75⟩, false, "Ada", "https://pay.example/x"⟩ " MENU "
        { state := SESSION_STATES.WALLET_TRANSFER, ticketType := some .VIP,
          walletBalance := some 81.25 } =
      ⟨resetToMainMenu, [.welcome "Ada"]⟩ :=
  ⟨Or.inl (by decide),
    (menu_reset_hard_clears ⟨⟨918.75, 1293.75⟩, false, "Ada", "https://pay.example/x"⟩
      " MENU "
      { state := SESSION_STATES.WALLET_TRANSFER, ticketType := some .VIP,
        walletBalance := some 81.25 } (Or.inl (by decide))).1⟩

/-- The read-only payment-status report never throws a
`ValidationError` (it can only return normally or hit a `TypeError`). -/
theorem handleCheckPaymentStatus_no_validation (cfg : Config) (s : UserSession)
    (e : ValidationError) :
    (handleCheckPaymentStatus cfg s).err ≠ some (.validation e) := by
  simp only [handleCheckPaymentStatus]
  split_ifs
  · rcases s.ticketType with _ | tt
    all_goals simp
  · simp
  · simp

/-- The wallet-balance display never throws. -/
theorem handleWalletBalance_err_none (s : UserSession) :
    (handleWalletBalance s).err = none := by
  simp only [handleWalletBalance]
  split_ifs
  all_goals rfl

/-- `handleMainMenu` throws a `ValidationError` only straight out of the
menu-option validator, before any mutation or reply. -/
theorem handleMainMenu_validation_frame (env : Env) (msg : String)
    (s : UserSession) (e : ValidationError)
    (herr : (handleMainMenu env msg s).err = some (.validation e)) :
    handleMainMenu env msg s = ⟨s, [], some (.validation e)⟩ := by
  rcases hv : validateMenuOption msg with ev | ov
  · simp only [handleMainMenu, hv] at herr ⊢
    simp_all
  · simp only [handleMainMenu, hv] at herr ⊢
    split_ifs at herr with h1 h2 h3 h4
    · exact absurd herr (handleCheckPaymentStatus_no_validation env.cfg s e)
    · rw [handleWalletBalance_err_none s] at herr
      simp at herr

/-- `handleTicketSelection` throws a `ValidationError` only straight out
of the ticket-type validator. -/
theorem handleTicketSelection_validation_frame (env : Env) (msg : String)
    (s : UserSession) (e : ValidationError)
    (herr : (handleTicketSelection env msg s).err = some (.validation e)) :
    handleTicketSelection env msg s = ⟨s, [], some (.validation e)⟩ := by
  simp only [handleTicketSelection] at herr ⊢
  split_ifs at herr ⊢ with h1
  rcases hv : validateTicketType msg env.vipOutOfStock with ev | ov
  · simp only [hv] at herr ⊢
    simp_all
  · simp only [hv] at herr ⊢
    simp at herr

/-- `handleEmailCollection` throws a `ValidationError` only straight out
of the email validator. -/
theorem handleEmailCollection_validation_frame (um : String)
    (s : UserSession) (e : ValidationError)
    (herr : (handleEmailCollection um s).err = some (.validation e)) :
    handleEmailCollection um s = ⟨s, [], some (.validation e)⟩ := by
  rcases hv : validateEmail um with ev | ov
  · simp only [handleEmailCollection, hv] at herr ⊢
    simp_all
  · simp only [handleEmailCollection, hv] at herr ⊢
    simp at herr

/-- `handleInstallmentPlanSelection` throws a `ValidationError` only
straight out of its session precondition or the plan validator. -/
theorem handleInstallmentPlanSelection_validation_frame (env : Env) (msg : String)
    (s : UserSession) (e : ValidationError)
    (herr : (handleInstallmentPlanSelection env msg s).err = some (.validation e)) :
    handleInstallmentPlanSelection env msg s = ⟨s, [], some (.validation e)⟩ := by
  rcases hT : s.ticketType with _ | tt
  · simp only [handleInstallmentPlanSelection, hT] at herr ⊢
    simp_all
  · simp only [handleInstallmentPlanSelection, hT] at herr ⊢
    split_ifs at herr ⊢ with h1
    · rcases hv : validateInstallmentPlan msg with ev | ov
      · simp only [hv] at herr ⊢
        simp_all
      · simp only [hv] at herr ⊢
        split_ifs at herr ⊢ with h2
    · simp_all

/-- `handleWalletTransfer` throws a `ValidationError` only straight out
of the destination validator. -/
theorem handleWalletTransfer_validation_frame (msg : String)
    (s : UserSession) (e : ValidationError)
    (herr : (handleWalletTransfer msg s).err = some (.validation e)) :
    handleWalletTransfer msg s = ⟨s, [], some (.validation e)⟩ := by
  rcases hv : validateWalletTransfer msg with ev | ov
  · simp only [handleWalletTransfer, hv] at herr ⊢
    simp_all
  · simp only [handleWalletTransfer, hv] at herr ⊢
    simp at herr

/-- Every state handler that throws a `ValidationError` does so before
mutating the in-memory session or sending any reply: its raw output
carries the unchanged session and an empty reply list. -/
theorem routed_validation_throws_are_pure (env : Env) (msg userMessage : String)
    (s : UserSession) (h : HandlerOut) (e : ValidationError)
    (hroute : routeHandler env msg userMessage s = some h)
    (herr : h.err = some (.validation e)) :
    h.session = s ∧ h.replies = [] := by
  unfold routeHandler at hroute
  split_ifs at hroute
  all_goals rw [Option.some_inj] at hroute
  all_goals subst hroute
  · rw [handleMainMenu_validation_frame env msg s e herr]
    exact ⟨rfl, rfl⟩
  · rw [handleTicketSelection_validation_frame env msg s e herr]
    exact ⟨rfl, rfl⟩
  · rw [handleEmailCollection_validation_frame userMessage s e herr]
    exact ⟨rfl, rfl⟩
  · rw [handleInstallmentPlanSelection_validation_frame env msg s e herr]
    exact ⟨rfl, rfl⟩
  · rw [handleWalletTransfer_validation_frame msg s e herr]
    exact ⟨rfl, rfl⟩

/-- C5: when the state handler for the current message raises a
`ValidationError`, the dispatcher's error boundary replies with exactly
the rejection's message and the persisted session is identical to the
session before the message — no field changed, no partial transition
written.  (The hypotheses `hmenu`/`hwelcome` restrict to inputs that
actually reach the state handlers: `menu`/`start` and the `WELCOME`
state are handled before dispatch and cannot raise.) -/
theorem validation_error_leaves_session_unchanged (env : Env)
    (userMessage : String) (s : UserSession) (h : HandlerOut) (e : ValidationError)
    (hroute : routeHandler env (jsToLower (sanitizeInput userMessage)) userMessage s = some h)
    (herr : h.err = some (.validation e))
    (hmenu : ¬(jsToLower (sanitizeInput userMessage) = "menu" ∨
               jsToLower (sanitizeInput userMessage) = "start"))
    (hwelcome : s.state ≠ SESSION_STATES.WELCOME) :
    handleMessage env userMessage s = ⟨s, [.text e.message]⟩ := by
  obtain ⟨hsess, hrep⟩ := routed_validation_throws_are_pure env
    (jsToLower (sanitizeInput userMessage)) userMessage s h e hroute herr
  unfold handleMessage
  rw [if_neg hmenu, if_neg hwelcome, hroute]
  simp [herr, hrep, errorReply]

/-- Witness for C5: "9" in `MAIN_MENU` is rejected by the menu-option
validator; the boundary replies with the validator's message and the
persisted session is the input session. -/
theorem validation_error_leaves_session_unchanged_witness :
    routeHandler ⟨⟨918.75, 1293.75⟩, false, "Ada", "https://pay.example/x"⟩
        (jsToLower (sanitizeInput "9")) "9" { state := SESSION_STATES.MAIN_MENU } =
      some ⟨{ state := SESSION_STATES.MAIN_MENU }, [],
        some (.validation ⟨"Please reply with a number 1-4 to select an option, or type *menu* to see options again."⟩)⟩ ∧
    handleMessage ⟨⟨918.75, 1293.75⟩, false, "Ada", "https://pay.example/x"⟩ "9"
        { state := SESSION_STATES.MAIN_MENU } =
      ⟨{ state := SESSION_STATES.MAIN_MENU },
        [.text "Please reply with a number 1-4 to select an option, or type *menu* to see options again."]⟩ :=
  ⟨by decide,
    validation_error_leaves_session_unchanged
      ⟨⟨918.75, 1293.75⟩, false, "Ada", "https://pay.example/x"⟩ "9"
      { state := SESSION_STATES.MAIN_MENU }
      ⟨{ state := SESSION_STATES.MAIN_MENU }, [],
        some (.validation ⟨"Please reply with a number 1-4 to select an option, or type *menu* to see options again."⟩)⟩
      ⟨"Please reply with a number 1-4 to select an option, or type *menu* to see options again."⟩
      (by decide) (by decide) (by decide) (by decide)⟩

/-- C6: for a session the post-cutoff sweep processes (no ticket, no
wallet credit, positive `amountPaid` and positive `remainingBalance`,
with a ticket tier on record): if the amount paid covers the GA price
the session is downgraded — `walletBalance = amountPaid − gaPrice` and
`state = WALLET_TRANSFER` — and otherwise the whole amount paid rolls
over into `walletBalance` with the same state transition; before (or at)
the configured cutoff the sweep does nothing at all. -/
theorem deadline_sweep_downgrade_and_rollover (cfg : Config) (now cutoff : ℤ)
    (s : UserSession) (a r : ℚ) (tt : TicketType)
    (hc : cutoff < now) (ht : s.ticketId = none) (hw : s.walletBalance = none)
    (ha : s.amountPaid = some a) (hapos : 0 < a)
    (hr : s.remainingBalance = some r) (hrpos : 0 < r)
    (htt : s.ticketType = some tt) :
    (cfg.gaPrice ≤ a →
      checkDeadlinesSession cfg now cutoff s =
        ({ s with walletBalance := some (a - cfg.gaPrice),
                  state := SESSION_STATES.WALLET_TRANSFER },
          [.deadlineDowngrade a (TICKETS cfg tt).price "Wave 1: GA" (a - cfg.gaPrice)])) ∧
    (a < cfg.gaPrice →
      checkDeadlinesSession cfg now cutoff s =
        ({ s with walletBalance := some a, state := SESSION_STATES.WALLET_TRANSFER },
          [.deadlineRollover a (TICKETS cfg tt).price])) ∧
    (∀ (n c : ℤ) (t : UserSession), n < c → checkDeadlinesSession cfg n c t = (t, [])) := by
  have hnow : ¬ (now ≤ cutoff) := by omega
  have hskip : ¬ (truthyStr s.ticketId = true ∨ s.walletBalance ≠ none) := by
    rw [ht, hw]
    simp [truthyStr]
  refine ⟨?_, ?_, ?_⟩
  · intro hga
    unfold checkDeadlinesSession
    rw [if_neg hnow, if_neg hskip]
    simp only [ha, hr, htt]
    rw [if_pos ⟨hapos, hrpos⟩]
    rcases tt with _ | _
    all_goals simp [calculateEligibleTier, hga, TICKETS]
  · intro hga
    have hga2 : ¬ (a ≥ cfg.gaPrice) := by linarith
    unfold checkDeadlinesSession
    rw [if_neg hnow, if_neg hskip]
    simp only [ha, hr, htt]
    rw [if_pos ⟨hapos, hrpos⟩]
    rcases tt with _ | _
    all_goals simp [calculateEligibleTier, hga2, TICKETS]
  · intro n c t hn
    unfold checkDeadlinesSession
    rw [if_pos (by omega : n ≤ c)]

/-- Witness for C6 at the spec's own scenario: a VIP-tier session with
`amountPaid = 1000`, GA price 918.75, swept after the cutoff, is
downgraded to `walletBalance = 81.25` and `state = WALLET_TRANSFER`;
before the cutoff the very same session is untouched. -/
theorem deadline_sweep_downgrade_and_rollover_witness :
    ((5 : ℤ) < 10 ∧ (0 : ℚ) < 1000 ∧ (0 : ℚ) < 293.75 ∧ (918.75 : ℚ) ≤ 1000) ∧
    (checkDeadlinesSession ⟨918.75, 1293.75⟩ 10 5
        { state := SESSION_STATES.AWAITING_PAYMENT, ticketType := some .VIP,
          amountPaid := some 1000, remainingBalance := some 293.75 }).1.walletBalance =
      some 81.25 ∧
    (checkDeadlinesSession ⟨918.75, 1293.75⟩ 10 5
        { state := SESSION_STATES.AWAITING_PAYMENT, ticketType := some .VIP,
          amountPaid := some 1000, remainingBalance := some 293.75 }).1.state =
      SESSION_STATES.WALLET_TRANSFER ∧
    checkDeadlinesSession ⟨918.75, 1293.75⟩ 4 5
        { state := SESSION_STATES.AWAITING_PAYMENT, ticketType := some .VIP,
          amountPaid := some 1000, remainingBalance := some 293.75 } =
      ({ state := SESSION_STATES.AWAITING_PAYMENT, ticketType := some .VIP,
         amountPaid := some 1000, remainingBalance := some 293.75 }, []) := by
  have h := deadline_sweep_downgrade_and_rollover ⟨918.75, 1293.75⟩ 10 5
    { state := SESSION_STATES.AWAITING_PAYMENT, ticketType := some .VIP,
      amountPaid := some 1000, remainingBalance := some 293.75 }
    1000 293.75 .VIP (by omega) rfl rfl rfl (by norm_num) rfl (by norm_num) rfl
  refine ⟨⟨by omega, by norm_num, by norm_num, by norm_num⟩, ?_, ?_, ?_⟩
  · rw [h.1 (by norm_num)]
    norm_num
  · rw [h.1 (by norm_num)]
  · exact h.2.2 4 5 _ (by omega)

/-- C8: applying a coupon that is active, unexpired and under its usage
ceiling, to a session with a ticket tier whose price is ≥ 0, with
`discountValue ≥ 0`, always records `discountedPrice ≤ originalPrice`,
and a fixed-type coupon never produces a negative price (it is floored
at zero). -/
theorem coupon_discount_bounds (cfg : Config) (lookup : String → Option Coupon)
    (now : ℤ) (link um : String) (s : UserSession) (c : Coupon) (tt : TicketType)
    (hlook : lookup (jsToUpper um) = some c)
    (hact : c.isActive = true)
    (hmax : ∀ m, c.maxUsage = some m → c.usageCount < m)
    (hexp : ∀ d, c.expiryDate = some d → now ≤ d)
    (htt : s.ticketType = some tt)
    (hp : 0 ≤ (TICKETS cfg tt).price)
    (hv : 0 ≤ c.discountValue) :
    ∃ d : ℚ,
      (handleCouponCode cfg lookup now link um s).session.discountedPrice = some d ∧
      (handleCouponCode cfg lookup now link um s).session.originalPrice =
        some (TICKETS cfg tt).price ∧
      d ≤ (TICKETS cfg tt).price ∧
      (c.discountType = .fixed → 0 ≤ d) := by
  have hmax2 : (match c.maxUsage with
      | some m => decide (c.usageCount ≥ m) | none => false) = false := by
    rcases hm : c.maxUsage with _ | m
    · rfl
    · simpa using (hmax m hm)
  have hexp2 : (match c.expiryDate with
      | some d => decide (now > d) | none => false) = false := by
    rcases he : c.expiryDate with _ | d
    · rfl
    · simpa using (hexp d he)
  simp only [handleCouponCode]
  rw [hlook]
  simp only [hact, if_true, hmax2, hexp2, htt, Bool.false_eq_true, if_false]
  rcases hd : c.discountType with _ | _
  · simp only [hd]
    exact ⟨_, rfl, trivial,
      by nlinarith [mul_nonneg hp (div_nonneg hv (by norm_num : (0:ℚ) ≤ 100))],
      by simp⟩
  · simp only [hd]
    exact ⟨_, rfl, trivial, max_le hp (by linarith), fun _ => le_max_left 0 _⟩

/-- Witness for C8: a fixed-10 coupon "SAVE10" applied (as "save10") to
a GA session at price 918.75. -/
theorem coupon_discount_bounds_witness :
    ((fun code => if code = "SAVE10"
        then some (⟨"SAVE10", .fixed, 10, true, 0, none, none⟩ : Coupon) else none)
      (jsToUpper "save10") = some ⟨"SAVE10", .fixed, 10, true, 0, none, none⟩) ∧
    (0 : ℚ) ≤ (TICKETS ⟨918.75, 1293.75⟩ .GA).price ∧ (0 : ℚ) ≤ 10 ∧
    (∃ d : ℚ,
      (handleCouponCode ⟨918.75, 1293.75⟩
          (fun code => if code = "SAVE10"
            then some (⟨"SAVE10", .fixed, 10, true, 0, none, none⟩ : Coupon) else none)
          0 "https://pay.example/x" "save10"
          { state := SESSION_STATES.AWAITING_EMAIL, ticketType := some .GA }).session.discountedPrice =
        some d ∧
      (handleCouponCode ⟨918.75, 1293.75⟩
          (fun code => if code = "SAVE10"
            then some (⟨"SAVE10", .fixed, 10, true, 0, none, none⟩ : Coupon) else none)
          0 "https://pay.example/x" "save10"
          { state := SESSION_STATES.AWAITING_EMAIL, ticketType := some .GA }).session.originalPrice =
        some (TICKETS ⟨918.75, 1293.75⟩ .GA).price ∧
      d ≤ (TICKETS ⟨918.75, 1293.75⟩ .GA).price ∧
      (DiscountType.fixed = DiscountType.fixed → 0 ≤ d)) :=
  ⟨by simp [show jsToUpper "save10" = "SAVE10" from by decide],
    by norm_num [TICKETS], by norm_num,
    coupon_discount_bounds ⟨918.75, 1293.75⟩
      (fun code => if code = "SAVE10"
        then some (⟨"SAVE10", .fixed, 10, true, 0, none, none⟩ : Coupon) else none)
      0 "https://pay.example/x" "save10"
      { state := SESSION_STATES.AWAITING_EMAIL, ticketType := some .GA }
      ⟨"SAVE10", .fixed, 10, true, 0, none, none⟩ .GA
      (by simp [show jsToUpper "save10" = "SAVE10" from by decide])
      rfl (by simp) (by simp) rfl (by norm_num [TICKETS]) (by norm_num)⟩

/-- The payment-status report never mutates the session at all. -/
theorem handleCheckPaymentStatus_session_id (cfg : Config) (s : UserSession) :
    (handleCheckPaymentStatus cfg s).session = s := by
  simp only [handleCheckPaymentStatus]
  split_ifs
  · rcases hT : s.ticketType with _ | tt
    all_goals simp only [hT]
  · rfl
  · rfl

/-- The main-menu handler never touches `ticketId` or
`remainingBalance`. -/
theorem handleMainMenu_preserves (env : Env) (msg : String) (s : UserSession) :
    preservesSettledFields s (handleMainMenu env msg s).session := by
  rcases hv : validateMenuOption msg with ev | ov
  · simp only [handleMainMenu, hv]
    exact ⟨rfl, rfl⟩
  · simp only [handleMainMenu, hv]
    split_ifs with h1 h2 h3 h4
    · exact ⟨rfl, rfl⟩
    · rw [handleCheckPaymentStatus_session_id]
      exact ⟨rfl, rfl⟩
    · simp only [handleWalletBalance]
      split_ifs
      · exact ⟨rfl, rfl⟩
      · exact ⟨rfl, rfl⟩
    · exact ⟨rfl, rfl⟩
    · exact ⟨rfl, rfl⟩

/-- The ticket-selection handler never touches `ticketId` or
`remainingBalance`. -/
theorem handleTicketSelection_preserves (env : Env) (msg : String) (s : UserSession) :
    preservesSettledFields s (handleTicketSelection env msg s).session := by
  simp only [handleTicketSelection]
  split_ifs
  · exact ⟨rfl, rfl⟩
  · rcases hv : validateTicketType msg env.vipOutOfStock with ev | ov
    · simp only [hv]
      exact ⟨rfl, rfl⟩
    · simp only [hv]
      exact ⟨rfl, rfl⟩

/-- The email-collection handler never touches `ticketId` or
`remainingBalance`. -/
theorem handleEmailCollection_preserves (um : String) (s : UserSession) :
    preservesSettledFields s (handleEmailCollection um s).session := by
  rcases hv : validateEmail um with ev | ov
  · simp only [handleEmailCollection, hv]
    exact ⟨rfl, rfl⟩
  · simp only [handleEmailCollection, hv]
    exact ⟨rfl, rfl⟩

/-- The installment-plan handler never touches `ticketId` or
`remainingBalance`. -/
theorem handleInstallmentPlanSelection_preserves (env : Env) (msg : String)
    (s : UserSession) :
    preservesSettledFields s (handleInstallmentPlanSelection env msg s).session := by
  rcases hT : s.ticketType with _ | tt
  · simp only [handleInstallmentPlanSelection, hT]
    exact ⟨rfl, rfl⟩
  · simp only [handleInstallmentPlanSelection, hT]
    split_ifs with h1
    · rcases hv : validateInstallmentPlan msg with ev | ov
      · simp only [hv]
        exact ⟨rfl, rfl⟩
      · simp only [hv]
        split_ifs with h2
        · exact ⟨rfl, rfl⟩
        · exact ⟨rfl, rfl⟩
    · exact ⟨rfl, rfl⟩

/-- The wallet-transfer handler never touches `ticketId` or
`remainingBalance`. -/
theorem handleWalletTransfer_preserves (msg : String) (s : UserSession) :
    preservesSettledFields s (handleWalletTransfer msg s).session := by
  rcases hv : validateWalletTransfer msg with ev | ov
  · simp only [handleWalletTransfer, hv]
    exact ⟨rfl, rfl⟩
  · simp only [handleWalletTransfer, hv]
    exact ⟨rfl, rfl⟩

/-- Any routed state handler leaves `ticketId` and `remainingBalance`
exactly as they were. -/
theorem routeHandler_preserves (env : Env) (msg um : String) (s : UserSession)
    (h : HandlerOut) (hro : routeHandler env msg um s = some h) :
    preservesSettledFields s h.session := by
  unfold routeHandler at hro
  split_ifs at hro
  all_goals rw [Option.some_inj] at hro
  all_goals subst hro
  · exact handleMainMenu_preserves env msg s
  · exact handleTicketSelection_preserves env msg s
  · exact handleEmailCollection_preserves um s
  · exact handleInstallmentPlanSelection_preserves env msg s
  · exact handleWalletTransfer_preserves msg s

/-- One inbound-message dispatch either hard-resets the session (the
`menu`/`start` branch) or leaves `ticketId` and `remainingBalance`
untouched. -/
theorem handleMessage_session_frame (env : Env) (um : String) (s : UserSession) :
    (handleMessage env um s).session = resetToMainMenu ∨
    preservesSettledFields s (handleMessage env um s).session := by
  simp only [handleMessage]
  by_cases h1 : jsToLower (sanitizeInput um) = "menu" ∨ jsToLower (sanitizeInput um) = "start"
  · rw [if_pos h1]
    left
    rfl
  · rw [if_neg h1]
    by_cases h2 : s.state = SESSION_STATES.WELCOME
    · rw [if_pos h2]
      right
      exact ⟨rfl, rfl⟩
    · rw [if_neg h2]
      rcases hro : routeHandler env (jsToLower (sanitizeInput um)) um s with _ | h
      · simp only [hro]
        by_cases h3 : s.state = SESSION_STATES.AWAITING_PAYMENT
        · rw [if_pos h3]
          right
          exact ⟨rfl, rfl⟩
        · rw [if_neg h3]
          right
          exact ⟨rfl, rfl⟩
      · simp only [hro]
        rcases herr : h.err with _ | e
        · simp only [herr]
          right
          exact routeHandler_preserves env (jsToLower (sanitizeInput um)) um s h hro
        · simp only [herr]
          right
          exact ⟨rfl, rfl⟩

/-- `processPaymentSuccess` either does nothing or zeroes
`remainingBalance` (and leaves `ticketId` alone). -/
theorem processPaymentSuccess_frame (cfg : Config) (amt : ℚ) (md : PayMetadata)
    (ue : Bool) (s : UserSession) :
    (processPaymentSuccess cfg amt md ue s).1 = s ∨
    ((processPaymentSuccess cfg amt md ue s).1.remainingBalance = some 0 ∧
     (processPaymentSuccess cfg amt md ue s).1.ticketId = s.ticketId) := by
  unfold processPaymentSuccess
  split_ifs with h1
  · rcases ho : md.ticketType.orElse (fun _ => s.ticketType) with _ | tt
    · simp [ho]
    · simp [ho]
  · left
    rfl

/-- A webhook delivery either leaves the session untouched or writes it
with `remainingBalance = 0` (never changing `ticketId`). -/
theorem webhook_session_frame (cfg : Config) (sv : Bool) (ev : String)
    (vf : Verification) (payment : Option Payment) (ue : Bool) (s : UserSession) :
    (handlePaystackWebhook cfg sv ev vf payment ue s).session = s ∨
    ((handlePaystackWebhook cfg sv ev vf payment ue s).session.remainingBalance = some 0 ∧
     (handlePaystackWebhook cfg sv ev vf payment ue s).session.ticketId = s.ticketId) := by
  unfold handlePaystackWebhook
  split_ifs with h1 h2 h3
  · rcases payment with _ | p
    · left
      rfl
    · dsimp only
      by_cases h4 : p.status = .pending
      · rw [if_pos h4]
        rcases processPaymentSuccess_frame cfg p.amount p.metadata ue s with h | h
        · left
          exact h
        · right
          exact ⟨h.1, h.2⟩
      · rw [if_neg h4]
        left
        rfl
  · left
    rfl
  · left
    rfl
  · left
    rfl

/-- Same frame for the callback entry point. -/
theorem callback_session_frame (cfg : Config) (vf : Verification)
    (payment : Option Payment) (ue : Bool) (s : UserSession) :
    (handlePaymentCallback cfg vf payment ue s).session = s ∨
    ((handlePaymentCallback cfg vf payment ue s).session.remainingBalance = some 0 ∧
     (handlePaymentCallback cfg vf payment ue s).session.ticketId = s.ticketId) := by
  unfold handlePaymentCallback
  split_ifs with h1
  · rcases payment with _ | p
    · left
      rfl
    · dsimp only
      by_cases h2 : p.status = .pending
      · rw [if_pos h2]
        rcases processPaymentSuccess_frame cfg p.amount p.metadata ue s with h | h
        · left
          exact h
        · right
          exact ⟨h.1, h.2⟩
      · rw [if_neg h2]
        left
        rfl
  · left
    rfl

/-- The deadline sweep never touches `ticketId` or `remainingBalance`. -/
theorem checkDeadlinesSession_preserves (cfg : Config) (n c : ℤ) (s : UserSession) :
    preservesSettledFields s (checkDeadlinesSession cfg n c s).1 := by
  unfold checkDeadlinesSession
  split_ifs with h1 h2
  · exact ⟨rfl, rfl⟩
  · exact ⟨rfl, rfl⟩
  · rcases ha : s.amountPaid with _ | a
    · simp only [ha]
      exact ⟨rfl, rfl⟩
    · rcases hr : s.remainingBalance with _ | r
      · simp only [ha, hr]
        exact ⟨rfl, rfl⟩
      · simp only [ha, hr]
        split_ifs with h3
        · rcases hT : s.ticketType with _ | tt
          · simp only [hT]
            exact ⟨rfl, hr.symm⟩
          · simp only [hT]
            rcases he : calculateEligibleTier cfg (some tt) a with _ | tier
            · simp only [he]
              exact ⟨rfl, hr.symm⟩
            · simp only [he]
              exact ⟨rfl, hr.symm⟩
        · exact ⟨rfl, rfl⟩

/-- The reminder sweep only ever writes reminder flags: `ticketId` and
`remainingBalance` are untouched. -/
theorem checkRemindersUser_preserves (templates : List RemTemplate) (d : ℤ)
    (s : UserSession) :
    preservesSettledFields s (checkRemindersUser templates d s).1 := by
  unfold checkRemindersUser
  split_ifs with h1
  · exact ⟨rfl, rfl⟩
  · rcases hrt : runTemplates d (s.reminders.getD []) templates with _ | kr
    · simp only [hrt]
      split_ifs
      all_goals exact ⟨rfl, rfl⟩
    · rcases kr with ⟨key, r1⟩
      simp only [hrt]
      exact ⟨rfl, rfl⟩

/-- Transport of the settled invariant along a frame. -/
theorem settled_of_preserved {s s2 : UserSession}
    (h : preservesSettledFields s s2) (hs : ticketSettled s) : ticketSettled s2 := by
  intro hsome
  rw [h.2]
  exact hs (h.1 ▸ hsome)

/-- Every single core operation preserves the settled invariant. -/
theorem applyOp_preserves_ticketSettled (op : CoreOp) (s : UserSession)
    (hs : ticketSettled s) : ticketSettled (applyOp s op) := by
  rcases op with ⟨env, um⟩ | ⟨cfg, sv, ev, vf, p, ue⟩ | ⟨cfg, vf, p, ue⟩ | ⟨cfg, n, c⟩ | ⟨ts, d⟩
  · rcases handleMessage_session_frame env um s with h | h
    · show ticketSettled (handleMessage env um s).session
      rw [h]
      intro hsome
      simp [resetToMainMenu] at hsome
    · exact settled_of_preserved h hs
  · rcases webhook_session_frame cfg sv ev vf p ue s with h | h
    · show ticketSettled (handlePaystackWebhook cfg sv ev vf p ue s).session
      rw [h]
      exact hs
    · intro hsome
      right
      exact h.1
  · rcases callback_session_frame cfg vf p ue s with h | h
    · show ticketSettled (handlePaymentCallback cfg vf p ue s).session
      rw [h]
      exact hs
    · intro hsome
      right
      exact h.1
  · exact settled_of_preserved (checkDeadlinesSession_preserves cfg n c s) hs
  · exact settled_of_preserved (checkRemindersUser_preserves ts d s) hs

/-- Counterexample to C4 as stated: the deadline sweep's skip guard uses
JavaScript truthiness (`session.ticketId || ...`), so a session whose
`ticketId` is present but equal to the empty string is NOT skipped: the
post-cutoff sweep modifies it (it acquires a wallet credit and moves to
`WALLET_TRANSFER`). -/
theorem deadline_sweep_empty_ticketId_cex :
    (({ ticketId := some "", ticketType := some .GA, amountPaid := some 1000,
        remainingBalance := some 100,
        state := SESSION_STATES.AWAITING_PAYMENT } : UserSession)).ticketId.isSome = true ∧
    (checkDeadlinesSession ⟨918, 1293⟩ 10 5
        { ticketId := some "", ticketType := some .GA, amountPaid := some 1000,
          remainingBalance := some 100,
          state := SESSION_STATES.AWAITING_PAYMENT }).1.walletBalance = some 82 ∧
    (checkDeadlinesSession ⟨918, 1293⟩ 10 5
        { ticketId := some "", ticketType := some .GA, amountPaid := some 1000,
          remainingBalance := some 100,
          state := SESSION_STATES.AWAITING_PAYMENT }).1 ≠
      { ticketId := some "", ticketType := some .GA, amountPaid := some 1000,
        remainingBalance := some 100,
        state := SESSION_STATES.AWAITING_PAYMENT } := by
  refine ⟨rfl, ?_, ?_⟩
  · norm_num [checkDeadlinesSession, truthyStr, calculateEligibleTier, TICKETS]
  · intro h
    have h2 := congrArg UserSession.walletBalance h
    norm_num [checkDeadlinesSession, truthyStr, calculateEligibleTier, TICKETS] at h2
    exact Option.noConfusion h2

/-- C4 (amended): (i) the settled-purchase invariant — `ticketId`
present implies `remainingBalance` 0 or absent — is preserved by every
sequence of core operations; (ii) a webhook delivery either leaves the
session untouched or writes it with `remainingBalance = 0`; (iii) the
deadline sweep never modifies a session with a NONEMPTY `ticketId`
(an empty-string `ticketId` is falsy to the sweep's skip guard and is
not protected, see the counterexample). -/
theorem ticket_settled_invariant :
    (∀ (ops : List CoreOp) (s : UserSession), ticketSettled s →
      ticketSettled (ops.foldl applyOp s)) ∧
    (∀ (cfg : Config) (sv : Bool) (ev : String) (vf : Verification)
       (p : Option Payment) (ue : Bool) (s : UserSession),
      (handlePaystackWebhook cfg sv ev vf p ue s).session = s ∨
      (handlePaystackWebhook cfg sv ev vf p ue s).session.remainingBalance = some 0) ∧
    (∀ (cfg : Config) (n c : ℤ) (s : UserSession) (t : String),
      s.ticketId = some t → t ≠ "" →
      checkDeadlinesSession cfg n c s = (s, [])) := by
  refine ⟨?_, ?_, ?_⟩
  · intro ops
    induction ops with
    | nil => exact fun s hs => hs
    | cons op rest ih =>
      intro s hs
      exact ih (applyOp s op) (applyOp_preserves_ticketSettled op s hs)
  · intro cfg sv ev vf p ue s
    rcases webhook_session_frame cfg sv ev vf p ue s with h | h
    · left
      exact h
    · right
      exact h.1
  · intro cfg n c s t ht hne
    unfold checkDeadlinesSession
    split_ifs with h1 h2
    · rfl
    · rfl
    · exact absurd (Or.inl (by simp [truthyStr, ht, hne])) h2

/-- Witness for C4 (amended): a settled session stays settled through a
deadline sweep followed by a webhook confirmation; the sweep leaves a
session with the nonempty ticketId "TICKET1" fully untouched. -/
theorem ticket_settled_invariant_witness :
    ticketSettled { ticketId := some "TICKET1", state := SESSION_STATES.MAIN_MENU } ∧
    ticketSettled
      ([CoreOp.deadline ⟨918, 1293⟩ 10 5,
        CoreOp.webhook ⟨918, 1293⟩ true "charge.success" ⟨"success", 7⟩
          (some ⟨"ref9", "chat9", 918, .pending, none, ⟨some .GA⟩⟩) true].foldl applyOp
        { ticketId := some "TICKET1", state := SESSION_STATES.MAIN_MENU }) ∧
    ("TICKET1" : String) ≠ "" ∧
    checkDeadlinesSession ⟨918, 1293⟩ 10 5
        { ticketId := some "TICKET1", state := SESSION_STATES.MAIN_MENU } =
      ({ ticketId := some "TICKET1", state := SESSION_STATES.MAIN_MENU }, []) :=
  ⟨fun _ => Or.inl rfl,
    ticket_settled_invariant.1
      [CoreOp.deadline ⟨918, 1293⟩ 10 5,
        CoreOp.webhook ⟨918, 1293⟩ true "charge.success" ⟨"success", 7⟩
          (some ⟨"ref9", "chat9", 918, .pending, none, ⟨some .GA⟩⟩) true]
      { ticketId := some "TICKET1", state := SESSION_STATES.MAIN_MENU }
      (fun _ => Or.inl rfl),
    by decide,
    ticket_settled_invariant.2.2 ⟨918, 1293⟩ 10 5
      { ticketId := some "TICKET1", state := SESSION_STATES.MAIN_MENU } "TICKET1"
      rfl (by decide)⟩

/-- Setting a flag makes its own lookup true. -/
theorem remGet_remSet_self (r : List (String × Bool)) (k : String) :
    remGet (remSet r k) k = true := by
  simp [remGet, remSet, List.lookup]

/-- Setting one flag leaves every other flag unchanged. -/
theorem remGet_remSet_other (r : List (String × Bool)) (k k2 : String)
    (h : k ≠ k2) : remGet (remSet r k2) k = remGet r k := by
  have hb : (k == k2) = false := by simpa using h
  simp [remGet, remSet, List.lookup, hb]

/-- Setting a flag never unsets another. -/
theorem remGet_remSet_mono (r : List (String × Bool)) (k k2 : String)
    (h : remGet r k = true) : remGet (remSet r k2) k = true := by
  by_cases hk : k = k2
  · subst hk
    exact remGet_remSet_self r k
  · rw [remGet_remSet_other r k k2 hk]
    exact h

/-- The template loop fires only a threshold whose flag is unset, and
returns the flag bag with exactly that flag newly set. -/
theorem runTemplates_spec (d : ℤ) (r : List (String × Bool))
    (ts : List RemTemplate) (key : String) (r2 : List (String × Bool))
    (h : runTemplates d r ts = some (key, r2)) :
    remGet r key = false ∧ r2 = remSet r key := by
  induction ts with
  | nil => simp [runTemplates] at h
  | cons t rest ih =>
    rw [runTemplates] at h
    rcases ht : t.triggerDays with _ | td
    · simp only [ht] at h
      exact ih h
    · simp only [ht] at h
      split_ifs at h with h1 h2
      · exact ih h
      · simp only [Option.some_inj, Prod.mk.injEq] at h
        obtain ⟨hk, hr⟩ := h
        subst hk
        exact ⟨h2.2, hr.symm⟩
      · exact ih h


/-- One reminder run: (i) sent flags are monotone — a flag that was
true stays true; (ii) every threshold sent this run had its flag unset
before and set after. -/
theorem checkRemindersUser_spec (templates : List RemTemplate) (d : ℤ)
    (s : UserSession) :
    (∀ k, sentFlag s k = true → sentFlag (checkRemindersUser templates d s).1 k = true) ∧
    (∀ k, k ∈ (checkRemindersUser templates d s).2 →
      sentFlag s k = false ∧ sentFlag (checkRemindersUser templates d s).1 k = true) := by
  unfold checkRemindersUser
  split_ifs with h1
  · exact ⟨fun k hk => hk, fun k hk => absurd hk (List.not_mem_nil k)⟩
  · rcases hrt : runTemplates d (s.reminders.getD []) templates with _ | ⟨key, r2⟩
    · simp only [hrt]
      split_ifs
      · rename_i hemp
        simp at hemp
      · rename_i h5 h1d hemp
        obtain ⟨hd5a, hd5b, hfive⟩ := h5
        obtain ⟨hd1, hone1⟩ := h1d
        constructor
        · intro k hk
          show remGet (remSet (remSet (s.reminders.getD []) "fiveDaySent") "oneDaySent") k = true
          exact remGet_remSet_mono _ k _ (remGet_remSet_mono _ k _ hk)
        · intro k hk
          simp only [List.cons_append, List.nil_append, List.mem_cons,
            List.not_mem_nil, or_false] at hk
          rcases hk with hk | hk
          · subst hk
            refine ⟨hfive, ?_⟩
            show remGet (remSet (remSet (s.reminders.getD []) "fiveDaySent") "oneDaySent")
                "fiveDaySent" = true
            rw [remGet_remSet_other _ _ _ (by decide)]
            exact remGet_remSet_self _ _
          · subst hk
            refine ⟨?_, ?_⟩
            · show remGet (s.reminders.getD []) "oneDaySent" = false
              rw [← remGet_remSet_other (s.reminders.getD []) "oneDaySent" "fiveDaySent"
                (by decide)]
              exact hone1
            · show remGet (remSet (remSet (s.reminders.getD []) "fiveDaySent") "oneDaySent")
                  "oneDaySent" = true
              exact remGet_remSet_self _ _
      · rename_i hemp
        simp at hemp
      · rename_i h5 h1d hemp
        obtain ⟨hd5a, hd5b, hfive⟩ := h5
        constructor
        · intro k hk
          show remGet (remSet (s.reminders.getD []) "fiveDaySent") k = true
          exact remGet_remSet_mono _ k _ hk
        · intro k hk
          simp only [List.append_nil, List.mem_cons, List.not_mem_nil, or_false] at hk
          subst hk
          exact ⟨hfive, remGet_remSet_self _ _⟩
      · rename_i hemp
        simp at hemp
      · rename_i h5 h1d hemp
        obtain ⟨hd1, hone⟩ := h1d
        constructor
        · intro k hk
          show remGet (remSet (s.reminders.getD []) "oneDaySent") k = true
          exact remGet_remSet_mono _ k _ hk
        · intro k hk
          simp only [List.nil_append, List.mem_cons, List.not_mem_nil, or_false] at hk
          subst hk
          exact ⟨hone, remGet_remSet_self _ _⟩
      · exact ⟨fun k hk => hk, fun k hk => absurd hk (List.not_mem_nil k)⟩
      · rename_i hemp
        exact absurd rfl hemp
    · obtain ⟨hkey, hr2⟩ := runTemplates_spec d (s.reminders.getD []) templates key r2 hrt
      subst hr2
      simp only [hrt]
      constructor
      · intro k hk
        show remGet (remSet (s.reminders.getD []) key) k = true
        exact remGet_remSet_mono _ k key hk
      · intro k hk
        rw [List.mem_singleton] at hk
        subst hk
        exact ⟨hkey, remGet_remSet_self _ k⟩


/-- Counterexample to C9 as stated: the `menu` hard reset — a core
operation — wipes `session.reminders`, turning a sent flag that was
`true` back into an unset (falsy) flag. -/
theorem menu_reset_clears_reminder_flag_cex :
    sentFlag { state := SESSION_STATES.MAIN_MENU,
               reminders := some [("fiveDaySent", true)] } "fiveDaySent" = true ∧
    sentFlag (handleMessage ⟨⟨918.75, 1293.75⟩, false, "Ada", "https://pay.example/x"⟩
        "menu" { state := SESSION_STATES.MAIN_MENU,
                 reminders := some [("fiveDaySent", true)] }).session "fiveDaySent" = false := by
  constructor
  · decide
  · decide

/-- C9 (amended): within the reminder scheduler each threshold (a
template's trigger-day count, or the fallback 5-day and 1-day
thresholds) is sent at most once ever: the per-threshold flag is checked
before sending and set immediately after, the sweep never unsets a flag,
and a threshold sent in one run is never re-sent by any later run.  (The
`menu`/`start` hard reset, however, wipes the whole session including
the reminder flags — see the counterexample — so flag monotonicity holds
for the scheduler, not for every core operation.) -/
theorem reminder_thresholds_send_once (templates : List RemTemplate)
    (daysLeft : ℤ) (s : UserSession) :
    (∀ k, sentFlag s k = true →
      sentFlag (checkRemindersUser templates daysLeft s).1 k = true) ∧
    (∀ k, k ∈ (checkRemindersUser templates daysLeft s).2 →
      sentFlag s k = false ∧
      sentFlag (checkRemindersUser templates daysLeft s).1 k = true) ∧
    (∀ (templates2 : List RemTemplate) (daysLeft2 : ℤ) (k : String),
      k ∈ (checkRemindersUser templates daysLeft s).2 →
      k ∉ (checkRemindersUser templates2 daysLeft2
            (checkRemindersUser templates daysLeft s).1).2) := by
  obtain ⟨mono, fresh⟩ := checkRemindersUser_spec templates daysLeft s
  refine ⟨mono, fresh, ?_⟩
  intro templates2 daysLeft2 k hk hk2
  have hset : sentFlag (checkRemindersUser templates daysLeft s).1 k = true :=
    (fresh k hk).2
  have hunset : sentFlag (checkRemindersUser templates daysLeft s).1 k = false :=
    ((checkRemindersUser_spec templates2 daysLeft2 _).2 k hk2).1
  rw [hset] at hunset
  exact Bool.noConfusion hunset

/-- Witness for C9 (amended): a 5-day template reminder is sent exactly
once; an immediately repeated run with the same templates and day count
sends nothing. -/
theorem reminder_thresholds_send_once_witness :
    sentFlag { nextDueDateISO := some "2025-12-01", remainingBalance := some 100 }
        "5DaySent" = false ∧
    (checkRemindersUser [⟨some 5⟩] 5
        { nextDueDateISO := some "2025-12-01", remainingBalance := some 100 }).2 =
      ["5DaySent"] ∧
    sentFlag (checkRemindersUser [⟨some 5⟩] 5
        { nextDueDateISO := some "2025-12-01", remainingBalance := some 100 }).1
      "5DaySent" = true ∧
    "5DaySent" ∉ (checkRemindersUser [⟨some 5⟩] 5
        (checkRemindersUser [⟨some 5⟩] 5
          { nextDueDateISO := some "2025-12-01", remainingBalance := some 100 }).1).2 :=
  ⟨by decide, by decide, by decide,
    (reminder_thresholds_send_once [⟨some 5⟩] 5
        { nextDueDateISO := some "2025-12-01", remainingBalance := some 100 }).2.2
      [⟨some 5⟩] 5 "5DaySent" (by decide)⟩

end Afro
